import Mathlib

/-!
Shallow embedding of the HoraeDB shard-set core
(`cluster/src/shard_set.rs`): the shard registry (`ShardSet`), the
per-shard state (`ShardData`) with its table-membership mutators, and the
shard open state machine (`Shard::open`).

Machine integers (`ShardId`, `ShardVersion`, table ids) are embedded as
`Nat`; the `u64` shard version is a monotone counter incremented once per
structural membership change, so wraparound is unreachable and not
modelled.  Fallible Rust functions returning `Result<T>` on a `&mut self`
receiver are embedded as pure functions returning
`Except ShardError T × ShardData`: the second component is the final
state, equal to the input state whenever the call fails.
-/

/-- Modelled from the spec: `ShardStatus` lives in the external
`meta_client` crate (not part of this excerpt); the spec requires at
minimum the four states NotOpened, Opening, Ready and Frozen. -/
inductive ShardStatus where
  | NotOpened
  | Opening
  | Ready
  | Frozen
deriving DecidableEq, Repr

/-- Modelled from the spec: `TableInfo` (from `meta_client`) identifies a
table known to a shard by schema name, table name and table id, and is
opaque beyond these fields. -/
structure TableInfo where
  id : Nat
  name : String
  schema_name : String
deriving DecidableEq, Repr

/-- Modelled from the spec: `ShardInfo` (from `meta_client`) carries the
shard identity, its version and its status. -/
structure ShardInfo where
  id : Nat
  version : Nat
  status : ShardStatus
deriving DecidableEq, Repr

/-- Modelled from the spec: `ShardInfo::is_opened` (from `meta_client`);
the spec states that `is_opened` holds iff status = Ready. -/
def ShardInfo.is_opened (i : ShardInfo) : Bool :=
  match i.status with
  | ShardStatus.Ready => true
  | _ => false

/-- Modelled from the spec: `TablesOfShard` (from `meta_client`), the
externally supplied descriptor a shard is constructed from. -/
structure TablesOfShard where
  shard_info : ShardInfo
  tables : List TableInfo
deriving DecidableEq, Repr

/-- The error variants of the cluster crate raised by `shard_set.rs`,
with the payloads the source attaches to them.  Failures of the external
operator procedure are represented by `OperatorFailure`. -/
inductive ShardError where
  | UpdateFrozenShard (shard_id : Nat)
  | ShardVersionMismatch (shard_info : ShardInfo) (expect_version : Nat)
  | TableAlreadyExists (msg : String)
  | TableNotFound (msg : String)
  | OpenShardNoCause (msg : String)
  | OpenShardWithCause (msg : String)
  | OperatorFailure (msg : String)
deriving DecidableEq, Repr

deriving instance DecidableEq for Except

/-- `UpdatedTableInfo`: the payload of every table-mutation request — the
caller's believed current shard info and the table to add or remove. -/
structure UpdatedTableInfo where
  shard_info : ShardInfo
  table_info : TableInfo
deriving DecidableEq, Repr

/-- `ShardData`: shard info plus the tables in the shard. -/
structure ShardData where
  shard_info : ShardInfo
  tables : List TableInfo
deriving DecidableEq, Repr

/-- `ShardData::find_table`: first table matching schema name and table
name. -/
def ShardData.find_table (d : ShardData) (schema_name table_name : String) :
    Option TableInfo :=
  d.tables.find? (fun t => t.schema_name == schema_name && t.name == table_name)

/-- `ShardData::freeze`: set the status to Frozen. -/
def ShardData.freeze (d : ShardData) : ShardData :=
  ⟨{ d.shard_info with status := ShardStatus.Frozen }, d.tables⟩

/-- `ShardData::begin_open`: set the status to Opening. -/
def ShardData.begin_open (d : ShardData) : ShardData :=
  ⟨{ d.shard_info with status := ShardStatus.Opening }, d.tables⟩

/-- `ShardData::finish_open`: assert the status is Opening, then set it to
Ready.  The Rust assertion failure (a panic, not a returned error) is
embedded as `none`. -/
def ShardData.finish_open (d : ShardData) : Option ShardData :=
  if d.shard_info.status = ShardStatus.Opening then
    some ⟨{ d.shard_info with status := ShardStatus.Ready }, d.tables⟩
  else
    none

/-- `ShardData::is_opened`. -/
def ShardData.is_opened (d : ShardData) : Bool :=
  d.shard_info.is_opened

/-- `ShardData::need_open`. -/
def ShardData.need_open (d : ShardData) : Bool :=
  !d.is_opened

/-- `ShardData::is_frozen`. -/
def ShardData.is_frozen (d : ShardData) : Bool :=
  match d.shard_info.status with
  | ShardStatus.Frozen => true
  | _ => false

/-- `ShardData::inc_shard_version`. -/
def ShardData.inc_shard_version (d : ShardData) : ShardData :=
  ⟨{ d.shard_info with version := d.shard_info.version + 1 }, d.tables⟩

/-- `Iterator::position` over a list, as used by `try_remove_table`. -/
def listPosition {α : Type} (p : α → Bool) : List α → Option Nat
  | [] => none
  | a :: t => if p a then some 0 else (listPosition p t).map (· + 1)

/-- `Vec::swap_remove`: remove the element at index `i` by replacing it
with the last element and popping the last slot. -/
def swapRemove {α : Type} (l : List α) (i : Nat) : List α :=
  match l.getLast? with
  | none => l
  | some a => (l.set i a).dropLast

/-- `ShardData::try_insert_table`: the guarded insertion shared by
`try_create_table` (`inc_version = true`) and `try_open_table`
(`inc_version = false`). -/
def ShardData.try_insert_table (d : ShardData) (updated_info : UpdatedTableInfo)
    (inc_version : Bool) : Except ShardError Nat × ShardData :=
  if d.is_frozen then
    (Except.error (ShardError.UpdateFrozenShard updated_info.shard_info.id), d)
  else if !(d.shard_info.version == updated_info.shard_info.version) then
    (Except.error (ShardError.ShardVersionMismatch d.shard_info
        updated_info.shard_info.version), d)
  else if (d.tables.find? (fun v => v.id == updated_info.table_info.id)).isSome then
    (Except.error (ShardError.TableAlreadyExists
        "the table to insert has already existed"), d)
  else
    let d1 : ShardData := ⟨d.shard_info, d.tables ++ [updated_info.table_info]⟩
    let d2 : ShardData := if inc_version then d1.inc_shard_version else d1
    (Except.ok d2.shard_info.version, d2)

/-- `ShardData::try_remove_table`: the guarded removal shared by
`try_drop_table` (`inc_version = true`) and `try_close_table`
(`inc_version = false`). -/
def ShardData.try_remove_table (d : ShardData) (updated_info : UpdatedTableInfo)
    (inc_version : Bool) : Except ShardError Nat × ShardData :=
  if d.is_frozen then
    (Except.error (ShardError.UpdateFrozenShard updated_info.shard_info.id), d)
  else if !(d.shard_info.version == updated_info.shard_info.version) then
    (Except.error (ShardError.ShardVersionMismatch d.shard_info
        updated_info.shard_info.version), d)
  else
    match listPosition (fun v => v.id == updated_info.table_info.id) d.tables with
    | none =>
        (Except.error (ShardError.TableNotFound
            "the table to remove is not found"), d)
    | some table_idx =>
        let d1 : ShardData := ⟨d.shard_info, swapRemove d.tables table_idx⟩
        let d2 : ShardData := if inc_version then d1.inc_shard_version else d1
        (Except.ok d2.shard_info.version, d2)

/-- `ShardData::try_create_table`: insert with version increment. -/
def ShardData.try_create_table (d : ShardData) (updated_info : UpdatedTableInfo) :
    Except ShardError Nat × ShardData :=
  d.try_insert_table updated_info true

/-- `ShardData::try_open_table`: insert without version increment; the
resulting version is discarded. -/
def ShardData.try_open_table (d : ShardData) (updated_info : UpdatedTableInfo) :
    Except ShardError Unit × ShardData :=
  let r := d.try_insert_table updated_info false
  (r.1.map (fun _ => ()), r.2)

/-- `ShardData::try_drop_table`: remove with version increment. -/
def ShardData.try_drop_table (d : ShardData) (updated_info : UpdatedTableInfo) :
    Except ShardError Nat × ShardData :=
  d.try_remove_table updated_info true

/-- `ShardData::try_close_table`: remove without version increment; the
resulting version is discarded. -/
def ShardData.try_close_table (d : ShardData) (updated_info : UpdatedTableInfo) :
    Except ShardError Unit × ShardData :=
  let r := d.try_remove_table updated_info false
  (r.1.map (fun _ => ()), r.2)

/-- `Shard::new`: construct the shard state from an externally supplied
`TablesOfShard` descriptor (the operator and lock fields carry no state
of their own). -/
def Shard.new (tables_of_shard : TablesOfShard) : ShardData :=
  ⟨tables_of_shard.shard_info, tables_of_shard.tables⟩

/-- `Shard::open`: embeds the open state machine.  The `try_lock`
acquisition is modelled as successful (lock contention is a concurrency
phenomenon outside this sequential embedding); `operator_result` is the
outcome of the external operator's open procedure; `none` embeds the
fatal `finish_open` assertion failure (a panic, never an error value). -/
def openShard (d : ShardData) (operator_result : Except ShardError Unit) :
    Option (Except ShardError Unit × ShardData) :=
  if !d.need_open then
    some (Except.error (ShardError.OpenShardNoCause "Shard is already in opening"), d)
  else
    let d1 := d.begin_open
    match operator_result with
    | Except.ok _ => d1.finish_open.map (fun d2 => (Except.ok (), d2))
    | Except.error e => some (Except.error e, d1)

/-- The four table-mutation requests servable by a shard, used to state
invariants over arbitrary operation sequences. -/
inductive TableOp where
  | createTable (u : UpdatedTableInfo)
  | dropTable (u : UpdatedTableInfo)
  | openTable (u : UpdatedTableInfo)
  | closeTable (u : UpdatedTableInfo)
deriving DecidableEq, Repr

/-- Apply one table-mutation request to the shard state, keeping the
resulting state whether the call succeeded or failed. -/
def applyTableOp (d : ShardData) (op : TableOp) : ShardData :=
  match op with
  | TableOp.createTable u => (d.try_create_table u).2
  | TableOp.dropTable u => (d.try_drop_table u).2
  | TableOp.openTable u => (d.try_open_table u).2
  | TableOp.closeTable u => (d.try_close_table u).2

/-- `ShardSet`: the registry, a hash map from shard id to handle, embedded
as an association list with most-recent insertion first.  `H` stands for
the reference-counted handle type `ShardRef`. -/
structure ShardSet (H : Type) where
  inner : List (Nat × H)

/-- `ShardSet::get`. -/
def ShardSet.get {H : Type} (s : ShardSet H) (shard_id : Nat) : Option H :=
  (s.inner.find? (fun p => p.1 == shard_id)).map Prod.snd

/-- `ShardSet::all_shards`: every handle, including not-yet-opened
shards. -/
def ShardSet.all_shards {H : Type} (s : ShardSet H) : List H :=
  s.inner.map Prod.snd

/-- `ShardSet::remove`: the removed handle, if any, and the new map. -/
def ShardSet.remove {H : Type} (s : ShardSet H) (shard_id : Nat) :
    Option H × ShardSet H :=
  (s.get shard_id, ⟨s.inner.filter (fun p => p.1 != shard_id)⟩)

/-- `ShardSet::insert`: the replaced handle, if any, and the new map. -/
def ShardSet.insert {H : Type} (s : ShardSet H) (shard_id : Nat) (shard : H) :
    Option H × ShardSet H :=
  (s.get shard_id, ⟨(shard_id, shard) :: s.inner.filter (fun p => p.1 != shard_id)⟩)

theorem ShardData.is_frozen_iff (d : ShardData) :
    d.is_frozen = true ↔ d.shard_info.status = ShardStatus.Frozen := by
  rcases d with ⟨⟨i, v, st⟩, ts⟩
  cases st <;> simp [ShardData.is_frozen]

theorem ShardData.is_frozen_eq_false (d : ShardData)
    (h : d.shard_info.status ≠ ShardStatus.Frozen) : d.is_frozen = false := by
  rcases hb : d.is_frozen with _ | _
  · rfl
  · exact absurd (d.is_frozen_iff.mp hb) h

theorem ShardData.need_open_iff (d : ShardData) :
    d.need_open = true ↔ d.shard_info.status ≠ ShardStatus.Ready := by
  rcases d with ⟨⟨i, v, st⟩, ts⟩
  cases st <;> simp [ShardData.need_open, ShardData.is_opened, ShardInfo.is_opened]

theorem try_insert_version_mismatch (d : ShardData) (u : UpdatedTableInfo) (b : Bool)
    (hf : d.is_frozen = false)
    (hv : d.shard_info.version ≠ u.shard_info.version) :
    d.try_insert_table u b =
      (Except.error (ShardError.ShardVersionMismatch d.shard_info
          u.shard_info.version), d) := by
  unfold ShardData.try_insert_table
  simp [hf, hv]

theorem try_remove_version_mismatch (d : ShardData) (u : UpdatedTableInfo) (b : Bool)
    (hf : d.is_frozen = false)
    (hv : d.shard_info.version ≠ u.shard_info.version) :
    d.try_remove_table u b =
      (Except.error (ShardError.ShardVersionMismatch d.shard_info
          u.shard_info.version), d) := by
  unfold ShardData.try_remove_table
  simp [hf, hv]

theorem try_insert_frozen (d : ShardData) (u : UpdatedTableInfo) (b : Bool)
    (hf : d.is_frozen = true) :
    d.try_insert_table u b =
      (Except.error (ShardError.UpdateFrozenShard u.shard_info.id), d) := by
  unfold ShardData.try_insert_table
  simp [hf]

theorem try_remove_frozen (d : ShardData) (u : UpdatedTableInfo) (b : Bool)
    (hf : d.is_frozen = true) :
    d.try_remove_table u b =
      (Except.error (ShardError.UpdateFrozenShard u.shard_info.id), d) := by
  unfold ShardData.try_remove_table
  simp [hf]

/-- C1: for every non-frozen shard state, each of the four table-mutation
requests whose carried version token differs from the stored shard
version fails with ShardVersionMismatch, leaves the whole shard state
(hence its version and table list) unchanged, and the error payload
carries the current shard info (identity, version, status) together with
the caller's expected version. -/
theorem version_mismatch_rejects_all_mutations
    (d : ShardData) (u : UpdatedTableInfo)
    (hf : d.shard_info.status ≠ ShardStatus.Frozen)
    (hv : u.shard_info.version ≠ d.shard_info.version) :
    d.try_create_table u =
      (Except.error (ShardError.ShardVersionMismatch d.shard_info
          u.shard_info.version), d)
    ∧ d.try_drop_table u =
      (Except.error (ShardError.ShardVersionMismatch d.shard_info
          u.shard_info.version), d)
    ∧ d.try_open_table u =
      (Except.error (ShardError.ShardVersionMismatch d.shard_info
          u.shard_info.version), d)
    ∧ d.try_close_table u =
      (Except.error (ShardError.ShardVersionMismatch d.shard_info
          u.shard_info.version), d) := by
  have hf' : d.is_frozen = false := d.is_frozen_eq_false hf
  have hv' : d.shard_info.version ≠ u.shard_info.version := fun h => hv h.symm
  refine ⟨?_, ?_, ?_, ?_⟩ <;>
    simp [ShardData.try_create_table, ShardData.try_drop_table,
      ShardData.try_open_table, ShardData.try_close_table,
      try_insert_version_mismatch d u _ hf' hv',
      try_remove_version_mismatch d u _ hf' hv', Except.map]

theorem version_mismatch_rejects_all_mutations_witness :
    (ShardData.try_create_table ⟨⟨0, 5, ShardStatus.Ready⟩, []⟩
        ⟨⟨0, 4, ShardStatus.Ready⟩, ⟨1, "t", "s"⟩⟩) =
      (Except.error (ShardError.ShardVersionMismatch ⟨0, 5, ShardStatus.Ready⟩ 4),
        ⟨⟨0, 5, ShardStatus.Ready⟩, []⟩) :=
  (version_mismatch_rejects_all_mutations ⟨⟨0, 5, ShardStatus.Ready⟩, []⟩
    ⟨⟨0, 4, ShardStatus.Ready⟩, ⟨1, "t", "s"⟩⟩ (by decide) (by decide)).1

/-- C4: for every shard state whose status is Frozen, each of the four
table-mutation requests fails with UpdateFrozenShard (carrying the
caller's shard id) and leaves the whole shard state unchanged; no
hypothesis relates the carried version token to the stored version, so
this holds whether or not they match — the frozen check precedes the
version check. -/
theorem frozen_rejects_all_mutations (d : ShardData) (u : UpdatedTableInfo)
    (hf : d.shard_info.status = ShardStatus.Frozen) :
    d.try_create_table u =
      (Except.error (ShardError.UpdateFrozenShard u.shard_info.id), d)
    ∧ d.try_drop_table u =
      (Except.error (ShardError.UpdateFrozenShard u.shard_info.id), d)
    ∧ d.try_open_table u =
      (Except.error (ShardError.UpdateFrozenShard u.shard_info.id), d)
    ∧ d.try_close_table u =
      (Except.error (ShardError.UpdateFrozenShard u.shard_info.id), d) := by
  have hf' : d.is_frozen = true := d.is_frozen_iff.mpr hf
  refine ⟨?_, ?_, ?_, ?_⟩ <;>
    simp [ShardData.try_create_table, ShardData.try_drop_table,
      ShardData.try_open_table, ShardData.try_close_table,
      try_insert_frozen d u _ hf', try_remove_frozen d u _ hf', Except.map]

theorem frozen_rejects_all_mutations_witness :
    (ShardData.try_drop_table ⟨⟨0, 5, ShardStatus.Frozen⟩, [⟨1, "t", "s"⟩]⟩
        ⟨⟨0, 4, ShardStatus.Frozen⟩, ⟨1, "t", "s"⟩⟩) =
      (Except.error (ShardError.UpdateFrozenShard 0),
        ⟨⟨0, 5, ShardStatus.Frozen⟩, [⟨1, "t", "s"⟩]⟩) :=
  ((frozen_rejects_all_mutations ⟨⟨0, 5, ShardStatus.Frozen⟩, [⟨1, "t", "s"⟩]⟩
    ⟨⟨0, 4, ShardStatus.Frozen⟩, ⟨1, "t", "s"⟩⟩ (by decide)).2).1

theorem try_insert_already_exists (d : ShardData) (u : UpdatedTableInfo) (b : Bool)
    (hf : d.is_frozen = false)
    (hv : d.shard_info.version = u.shard_info.version)
    (hmem : (d.tables.find? (fun t => t.id == u.table_info.id)).isSome = true) :
    d.try_insert_table u b =
      (Except.error (ShardError.TableAlreadyExists
          "the table to insert has already existed"), d) := by
  unfold ShardData.try_insert_table
  simp [hf, hv, hmem]

theorem try_remove_not_found (d : ShardData) (u : UpdatedTableInfo) (b : Bool)
    (hf : d.is_frozen = false)
    (hv : d.shard_info.version = u.shard_info.version)
    (hpos : listPosition (fun t => t.id == u.table_info.id) d.tables = none) :
    d.try_remove_table u b =
      (Except.error (ShardError.TableNotFound
          "the table to remove is not found"), d) := by
  unfold ShardData.try_remove_table
  simp [hf, hv, hpos]

theorem try_insert_table_success (d : ShardData) (u : UpdatedTableInfo) (b : Bool)
    (hf : d.is_frozen = false)
    (hv : d.shard_info.version = u.shard_info.version)
    (habs : d.tables.find? (fun t => t.id == u.table_info.id) = none) :
    d.try_insert_table u b =
      (Except.ok (if b then d.shard_info.version + 1 else d.shard_info.version),
       ⟨if b then { d.shard_info with version := d.shard_info.version + 1 }
          else d.shard_info,
        d.tables ++ [u.table_info]⟩) := by
  unfold ShardData.try_insert_table
  cases b <;> simp [hf, hv, habs, ShardData.inc_shard_version]

theorem try_remove_table_success (d : ShardData) (u : UpdatedTableInfo) (b : Bool)
    (i : Nat)
    (hf : d.is_frozen = false)
    (hv : d.shard_info.version = u.shard_info.version)
    (hpos : listPosition (fun t => t.id == u.table_info.id) d.tables = some i) :
    d.try_remove_table u b =
      (Except.ok (if b then d.shard_info.version + 1 else d.shard_info.version),
       ⟨if b then { d.shard_info with version := d.shard_info.version + 1 }
          else d.shard_info,
        swapRemove d.tables i⟩) := by
  unfold ShardData.try_remove_table
  cases b <;> simp [hf, hv, hpos, ShardData.inc_shard_version]

theorem try_insert_table_ok_elim (d : ShardData) (u : UpdatedTableInfo) (b : Bool)
    (v : Nat) (d' : ShardData)
    (h : d.try_insert_table u b = (Except.ok v, d')) :
    d.is_frozen = false ∧ d.shard_info.version = u.shard_info.version ∧
    d.tables.find? (fun t => t.id == u.table_info.id) = none := by
  by_cases hf : d.is_frozen = true
  · rw [try_insert_frozen d u b hf] at h
    exact absurd h (by simp)
  rw [Bool.not_eq_true] at hf
  by_cases hv : d.shard_info.version = u.shard_info.version
  · rcases habs : d.tables.find? (fun t => t.id == u.table_info.id) with _ | t
    · exact ⟨hf, hv, habs⟩
    · rw [try_insert_already_exists d u b hf hv (by simp [habs])] at h
      exact absurd h (by simp)
  · rw [try_insert_version_mismatch d u b hf hv] at h
    exact absurd h (by simp)

theorem try_remove_table_ok_elim (d : ShardData) (u : UpdatedTableInfo) (b : Bool)
    (v : Nat) (d' : ShardData)
    (h : d.try_remove_table u b = (Except.ok v, d')) :
    d.is_frozen = false ∧ d.shard_info.version = u.shard_info.version ∧
    ∃ i, listPosition (fun t => t.id == u.table_info.id) d.tables = some i := by
  by_cases hf : d.is_frozen = true
  · rw [try_remove_frozen d u b hf] at h
    exact absurd h (by simp)
  rw [Bool.not_eq_true] at hf
  by_cases hv : d.shard_info.version = u.shard_info.version
  · rcases hpos : listPosition (fun t => t.id == u.table_info.id) d.tables with _ | i
    · rw [try_remove_not_found d u b hf hv hpos] at h
      exact absurd h (by simp)
    · exact ⟨hf, hv, i, hpos⟩
  · rw [try_remove_version_mismatch d u b hf hv] at h
    exact absurd h (by simp)

theorem try_insert_table_no_inc_shard_info (d : ShardData) (u : UpdatedTableInfo) :
    (d.try_insert_table u false).2.shard_info = d.shard_info := by
  unfold ShardData.try_insert_table
  split
  · rfl
  · split
    · rfl
    · split
      · rfl
      · rfl

theorem try_remove_table_no_inc_shard_info (d : ShardData) (u : UpdatedTableInfo) :
    (d.try_remove_table u false).2.shard_info = d.shard_info := by
  unfold ShardData.try_remove_table
  split
  · rfl
  · split
    · rfl
    · split
      · rfl
      · rfl

theorem openShard_cases (d : ShardData) (r : Except ShardError Unit)
    (res : Except ShardError Unit) (d' : ShardData)
    (h : openShard d r = some (res, d')) :
    (d.need_open = false ∧ d' = d ∧
      res = Except.error (ShardError.OpenShardNoCause "Shard is already in opening"))
    ∨ (d.need_open = true ∧ r = Except.ok () ∧ res = Except.ok () ∧
        d' = ⟨{ d.shard_info with status := ShardStatus.Ready }, d.tables⟩)
    ∨ (d.need_open = true ∧ ∃ e, r = Except.error e ∧ res = Except.error e ∧
        d' = ⟨{ d.shard_info with status := ShardStatus.Opening }, d.tables⟩) := by
  unfold openShard at h
  rcases hn : d.need_open with _ | _
  · rw [hn] at h
    simp at h
    exact Or.inl ⟨rfl, h.2.symm, h.1.symm⟩
  · rw [hn] at h
    simp at h
    cases r with
    | ok x =>
        simp [ShardData.begin_open, ShardData.finish_open] at h
        exact Or.inr (Or.inl ⟨rfl, rfl, h.1.symm, h.2.symm⟩)
    | error e =>
        simp [ShardData.begin_open] at h
        exact Or.inr (Or.inr ⟨rfl, e, rfl, h.1.symm, h.2.symm⟩)

/-- C2: every successful try_create_table or try_drop_table increments the
shard version by exactly 1 and returns the incremented version; the
materialization calls try_open_table and try_close_table leave the shard
version unchanged in every outcome (and return only Unit, no version, by
their type); and none of the remaining state mutators of this core —
freeze, begin_open, finish_open, and the whole Shard::open flow — changes
the version. -/
theorem structural_ops_version_discipline (d : ShardData) (u : UpdatedTableInfo) :
    (∀ (v : Nat) (d' : ShardData), d.try_create_table u = (Except.ok v, d') →
      d'.shard_info.version = d.shard_info.version + 1 ∧ v = d'.shard_info.version)
    ∧ (∀ (v : Nat) (d' : ShardData), d.try_drop_table u = (Except.ok v, d') →
      d'.shard_info.version = d.shard_info.version + 1 ∧ v = d'.shard_info.version)
    ∧ (d.try_open_table u).2.shard_info.version = d.shard_info.version
    ∧ (d.try_close_table u).2.shard_info.version = d.shard_info.version
    ∧ d.freeze.shard_info.version = d.shard_info.version
    ∧ d.begin_open.shard_info.version = d.shard_info.version
    ∧ (∀ d' : ShardData, d.finish_open = some d' →
        d'.shard_info.version = d.shard_info.version)
    ∧ (∀ (r res : Except ShardError Unit) (d' : ShardData),
        openShard d r = some (res, d') →
        d'.shard_info.version = d.shard_info.version) := by
  refine ⟨?_, ?_, ?_, ?_, rfl, rfl, ?_, ?_⟩
  · intro v d' h
    unfold ShardData.try_create_table at h
    obtain ⟨hf, hv, habs⟩ := try_insert_table_ok_elim d u true v d' h
    rw [try_insert_table_success d u true hf hv habs] at h
    simp at h
    rw [← h.2]
    exact ⟨rfl, h.1.symm⟩
  · intro v d' h
    unfold ShardData.try_drop_table at h
    obtain ⟨hf, hv, i, hpos⟩ := try_remove_table_ok_elim d u true v d' h
    rw [try_remove_table_success d u true i hf hv hpos] at h
    simp at h
    rw [← h.2]
    exact ⟨rfl, h.1.symm⟩
  · exact congrArg ShardInfo.version (try_insert_table_no_inc_shard_info d u)
  · exact congrArg ShardInfo.version (try_remove_table_no_inc_shard_info d u)
  · intro d' h
    unfold ShardData.finish_open at h
    split at h
    · simp at h
      rw [← h]
    · exact absurd h (by simp)
  · intro r res d' h
    rcases openShard_cases d r res d' h with ⟨_, hd, _⟩ | ⟨_, _, _, hd⟩ | ⟨_, e, _, _, hd⟩ <;>
      rw [hd]

theorem structural_ops_version_discipline_witness :
    (⟨⟨7, 1, ShardStatus.Ready⟩, [⟨1, "t", "s"⟩]⟩ : ShardData).shard_info.version =
      (⟨⟨7, 0, ShardStatus.Ready⟩, []⟩ : ShardData).shard_info.version + 1
    ∧ (1 : Nat) =
      (⟨⟨7, 1, ShardStatus.Ready⟩, [⟨1, "t", "s"⟩]⟩ : ShardData).shard_info.version :=
  (structural_ops_version_discipline ⟨⟨7, 0, ShardStatus.Ready⟩, []⟩
      ⟨⟨7, 0, ShardStatus.Ready⟩, ⟨1, "t", "s"⟩⟩).1 1
    ⟨⟨7, 1, ShardStatus.Ready⟩, [⟨1, "t", "s"⟩]⟩ (by decide)

theorem try_insert_table_status (d : ShardData) (u : UpdatedTableInfo) (b : Bool) :
    (d.try_insert_table u b).2.shard_info.status = d.shard_info.status := by
  unfold ShardData.try_insert_table
  split
  · rfl
  · split
    · rfl
    · split
      · rfl
      · cases b <;> rfl

theorem try_remove_table_status (d : ShardData) (u : UpdatedTableInfo) (b : Bool) :
    (d.try_remove_table u b).2.shard_info.status = d.shard_info.status := by
  unfold ShardData.try_remove_table
  split
  · rfl
  · split
    · rfl
    · split
      · rfl
      · cases b <;> rfl

theorem need_open_eq_false_status (d : ShardData) (hn : d.need_open = false) :
    d.shard_info.status = ShardStatus.Ready := by
  by_contra hne
  rw [d.need_open_iff.mpr hne] at hn
  exact absurd hn (by simp)

/-- C7: once open() has passed its guard (need_open), set status = Opening
and invoked the operator's open procedure: on operator success, open()
sets status = Ready — the finish_open assertion (status still Opening) is
satisfied, so no fatal fault occurs; on operator failure, the status
remains Opening (so a later open attempt is possible) and the operator's
failure is returned to the caller unchanged.  Separately, finish_open
invoked with status ≠ Opening is the fatal assertion failure, embedded as
none — an abort, never a returned error value. -/
theorem open_finish_and_failure_semantics (d : ShardData)
    (hneed : d.need_open = true) :
    openShard d (Except.ok ()) =
      some (Except.ok (),
        ⟨{ d.shard_info with status := ShardStatus.Ready }, d.tables⟩)
    ∧ (∀ e : ShardError, openShard d (Except.error e) =
        some (Except.error e,
          ⟨{ d.shard_info with status := ShardStatus.Opening }, d.tables⟩))
    ∧ (∀ d' : ShardData, d'.shard_info.status ≠ ShardStatus.Opening →
        d'.finish_open = none) := by
  refine ⟨?_, ?_, ?_⟩
  · unfold openShard
    rw [hneed]
    simp [ShardData.begin_open, ShardData.finish_open]
  · intro e
    unfold openShard
    rw [hneed]
    simp [ShardData.begin_open]
  · intro d' h
    unfold ShardData.finish_open
    simp [h]

theorem open_finish_and_failure_semantics_witness :
    openShard ⟨⟨3, 0, ShardStatus.NotOpened⟩, []⟩ (Except.ok ()) =
      some (Except.ok (), ⟨⟨3, 0, ShardStatus.Ready⟩, []⟩) :=
  (open_finish_and_failure_semantics ⟨⟨3, 0, ShardStatus.NotOpened⟩, []⟩ (by decide)).1

/-- C3 counterexample: under the spec's definition of is_opened (true only
for status = Ready), a Frozen shard satisfies need_open, so open() on a
Frozen shard passes the guard and mutates the status: with a succeeding
operator it ends at Ready, which differs from Frozen — refuting both that
the only transitions are NotOpened → Opening → Ready and any → Frozen,
and that open() never changes a Frozen shard's status. -/
theorem frozen_not_terminal_counterexample :
    openShard ⟨⟨0, 0, ShardStatus.Frozen⟩, []⟩ (Except.ok ()) =
      some (Except.ok (), ⟨⟨0, 0, ShardStatus.Ready⟩, []⟩)
    ∧ ShardStatus.Ready ≠ ShardStatus.Frozen :=
  ⟨rfl, by decide⟩

/-- C3 amended: the table mutators never change the status; freeze moves
any status to Frozen; begin_open moves any status to Opening; finish_open
succeeds exactly from Opening and yields Ready; and open() either rejects
an already-Ready shard with the state unchanged, or — from any non-Ready
status, Frozen included, since need_open holds iff status ≠ Ready — moves
the shard to Opening and, on operator success, to Ready.  So the
transitions are NotOpened → Opening → Ready, (any) → Frozen, and
(any non-Ready, in particular Frozen) → Opening via open(): Frozen is
terminal for table mutations but not for open(). -/
theorem status_transition_discipline (d : ShardData) (u : UpdatedTableInfo) :
    (∀ b : Bool, (d.try_insert_table u b).2.shard_info.status = d.shard_info.status)
    ∧ (∀ b : Bool, (d.try_remove_table u b).2.shard_info.status = d.shard_info.status)
    ∧ d.freeze.shard_info.status = ShardStatus.Frozen
    ∧ d.begin_open.shard_info.status = ShardStatus.Opening
    ∧ (∀ d' : ShardData, d.finish_open = some d' →
        d.shard_info.status = ShardStatus.Opening ∧
        d'.shard_info.status = ShardStatus.Ready)
    ∧ (∀ (r res : Except ShardError Unit) (d' : ShardData),
        openShard d r = some (res, d') →
        (d.shard_info.status = ShardStatus.Ready ∧ d' = d)
        ∨ (d.shard_info.status ≠ ShardStatus.Ready ∧
            (d'.shard_info.status = ShardStatus.Opening ∨
             d'.shard_info.status = ShardStatus.Ready))) := by
  refine ⟨try_insert_table_status d u, try_remove_table_status d u, rfl, rfl, ?_, ?_⟩
  · intro d' h
    unfold ShardData.finish_open at h
    split at h
    · simp at h
      rw [← h]
      exact ⟨by assumption, rfl⟩
    · exact absurd h (by simp)
  · intro r res d' h
    rcases openShard_cases d r res d' h with ⟨hn, hd, _⟩ | ⟨hn, _, _, hd⟩ | ⟨hn, e, _, _, hd⟩
    · exact Or.inl ⟨need_open_eq_false_status d hn, hd⟩
    · exact Or.inr ⟨d.need_open_iff.mp hn, Or.inr (by rw [hd])⟩
    · exact Or.inr ⟨d.need_open_iff.mp hn, Or.inl (by rw [hd])⟩

theorem status_transition_discipline_witness :
    (⟨⟨0, 0, ShardStatus.Opening⟩, []⟩ : ShardData).shard_info.status =
      ShardStatus.Opening
    ∧ (⟨⟨0, 0, ShardStatus.Ready⟩, []⟩ : ShardData).shard_info.status =
      ShardStatus.Ready :=
  ((status_transition_discipline ⟨⟨0, 0, ShardStatus.Opening⟩, []⟩
      ⟨⟨0, 0, ShardStatus.Ready⟩, ⟨1, "t", "s"⟩⟩).2.2.2.2.1)
    ⟨⟨0, 0, ShardStatus.Ready⟩, []⟩ (by decide)

/-- C6 counterexample: a shard whose status is already Opening satisfies
need_open (is_opened holds only for Ready), so open() on it passes the
guard and proceeds — running the operator and finishing at Ready — rather
than failing with the already-opening error, refuting the claim for the
Opening half of "already Opening or already Ready". -/
theorem open_on_opening_proceeds_counterexample :
    openShard ⟨⟨0, 0, ShardStatus.Opening⟩, []⟩ (Except.ok ()) =
      some (Except.ok (), ⟨⟨0, 0, ShardStatus.Ready⟩, []⟩)
    ∧ (Except.ok () : Except ShardError Unit) ≠
      Except.error (ShardError.OpenShardNoCause "Shard is already in opening") :=
  ⟨rfl, by decide⟩

/-- C6 amended: if open() acquires the operator lock while the shard
status is already Ready (the only status for which need_open fails, per
the spec's is_opened), it fails with the already-opening OpenShardNoCause
error and performs no mutation of the shard state; a shard already in
Opening status instead passes the need_open guard and open() proceeds. -/
theorem open_already_opened_rejected (d : ShardData)
    (h : d.shard_info.status = ShardStatus.Ready)
    (r : Except ShardError Unit) :
    openShard d r =
      some (Except.error (ShardError.OpenShardNoCause "Shard is already in opening"),
        d) := by
  have hn : d.need_open = false := by
    rcases hb : d.need_open with _ | _
    · rfl
    · exact absurd (d.need_open_iff.mp hb) (by simp [h])
  unfold openShard
  rw [hn]
  simp

theorem open_already_opened_rejected_witness :
    openShard ⟨⟨1, 0, ShardStatus.Ready⟩, []⟩ (Except.ok ()) =
      some (Except.error (ShardError.OpenShardNoCause "Shard is already in opening"),
        ⟨⟨1, 0, ShardStatus.Ready⟩, []⟩) :=
  open_already_opened_rejected ⟨⟨1, 0, ShardStatus.Ready⟩, []⟩ rfl (Except.ok ())

theorem except_map_error_iff {e : ShardError} {x : Except ShardError Nat} :
    x.map (fun _ => ()) = Except.error e ↔ x = Except.error e := by
  cases x <;> simp [Except.map]

/-- C10: on a non-frozen shard with a matching version token,
try_open_table fails with TableAlreadyExists and mutates nothing whenever
a table with the same id is already present in the shard's table list; it
succeeds only when no present table has that id, in which case it appends
exactly the given table; and it raises exactly the same errors as
try_create_table, both delegating to the shared try_insert_table presence
check. -/
theorem open_table_requires_absent (d : ShardData) (u : UpdatedTableInfo)
    (hf : d.shard_info.status ≠ ShardStatus.Frozen)
    (hv : d.shard_info.version = u.shard_info.version) :
    ((∃ t ∈ d.tables, t.id = u.table_info.id) →
      d.try_open_table u =
        (Except.error (ShardError.TableAlreadyExists
            "the table to insert has already existed"), d))
    ∧ ((d.try_open_table u).1 = Except.ok () →
        (∀ t ∈ d.tables, t.id ≠ u.table_info.id) ∧
        (d.try_open_table u).2.tables = d.tables ++ [u.table_info])
    ∧ (∀ e : ShardError,
        (d.try_open_table u).1 = Except.error e ↔
        (d.try_create_table u).1 = Except.error e) := by
  have hf' : d.is_frozen = false := d.is_frozen_eq_false hf
  refine ⟨?_, ?_, ?_⟩
  · intro hex
    have hsome : (d.tables.find? (fun t => t.id == u.table_info.id)).isSome = true := by
      rw [List.find?_isSome]
      obtain ⟨t, ht, hid⟩ := hex
      exact ⟨t, ht, by simp [hid]⟩
    unfold ShardData.try_open_table
    rw [try_insert_already_exists d u false hf' hv hsome]
    rfl
  · intro hok
    rcases habs : d.tables.find? (fun t => t.id == u.table_info.id) with _ | t
    · constructor
      · intro t ht hid
        have := List.find?_eq_none.mp habs t ht
        exact this (by simp [hid])
      · unfold ShardData.try_open_table
        rw [try_insert_table_success d u false hf' hv habs]
    · unfold ShardData.try_open_table at hok
      rw [try_insert_already_exists d u false hf' hv (by simp [habs])] at hok
      exact absurd hok (by simp [Except.map])
  · intro e
    unfold ShardData.try_open_table ShardData.try_create_table
    rw [except_map_error_iff]
    rcases habs : d.tables.find? (fun t => t.id == u.table_info.id) with _ | t
    · rw [try_insert_table_success d u false hf' hv habs,
        try_insert_table_success d u true hf' hv habs]
      simp
    · rw [try_insert_already_exists d u false hf' hv (by simp [habs]),
        try_insert_already_exists d u true hf' hv (by simp [habs])]

theorem open_table_requires_absent_witness :
    (ShardData.try_open_table ⟨⟨2, 3, ShardStatus.Ready⟩, [⟨9, "t", "s"⟩]⟩
        ⟨⟨2, 3, ShardStatus.Ready⟩, ⟨9, "other", "s2"⟩⟩) =
      (Except.error (ShardError.TableAlreadyExists
          "the table to insert has already existed"),
        ⟨⟨2, 3, ShardStatus.Ready⟩, [⟨9, "t", "s"⟩]⟩) :=
  (open_table_requires_absent ⟨⟨2, 3, ShardStatus.Ready⟩, [⟨9, "t", "s"⟩]⟩
      ⟨⟨2, 3, ShardStatus.Ready⟩, ⟨9, "other", "s2"⟩⟩ (by decide) rfl).1
    ⟨⟨9, "t", "s"⟩, by decide, rfl⟩

theorem listPosition_eq_none {α : Type} (p : α → Bool) (l : List α) :
    listPosition p l = none ↔ ∀ x ∈ l, ¬ p x = true := by
  induction l with
  | nil => simp [listPosition]
  | cons a t ih =>
    by_cases hp : p a
    · simp [listPosition, hp]
    · simp [listPosition, hp, Option.map_eq_none', ih]

theorem listPosition_eq_some {α : Type} (p : α → Bool) (l : List α) (i : Nat)
    (h : listPosition p l = some i) :
    ∃ l₁ a l₂, l = l₁ ++ a :: l₂ ∧ l₁.length = i ∧ p a = true := by
  induction l generalizing i with
  | nil => simp [listPosition] at h
  | cons b t ih =>
    by_cases hp : p b
    · refine ⟨[], b, t, rfl, ?_, hp⟩
      simp [listPosition, hp] at h
      simpa using h
    · simp [listPosition, hp, Option.map_eq_some'] at h
      obtain ⟨j, hj, hij⟩ := h
      obtain ⟨l₁, a, l₂, hl, hlen, hpa⟩ := ih j hj
      exact ⟨b :: l₁, a, l₂, by rw [hl]; rfl, by simp [hlen, hij], hpa⟩

theorem set_append_cons {α : Type} (l₁ l₂ : List α) (a z : α) :
    (l₁ ++ a :: l₂).set l₁.length z = l₁ ++ z :: l₂ := by
  induction l₁ with
  | nil => rfl
  | cons b t ih =>
    show b :: (t ++ a :: l₂).set t.length z = b :: (t ++ z :: l₂)
    rw [ih]

theorem swapRemove_concat {α : Type} (l : List α) (z : α) (i : Nat) :
    swapRemove (l ++ [z]) i = ((l ++ [z]).set i z).dropLast := by
  unfold swapRemove
  rw [List.getLast?_concat]

theorem swapRemove_append_cons {α : Type} (l₁ l₂ : List α) (a : α) :
    List.Perm (swapRemove (l₁ ++ a :: l₂) l₁.length) (l₁ ++ l₂) := by
  rcases List.eq_nil_or_concat l₂ with h | ⟨l₂', z, h⟩
  · subst h
    rw [show l₁ ++ [a] = l₁ ++ [a] from rfl, swapRemove_concat, set_append_cons,
      List.dropLast_concat]
    simp
  · subst h
    rw [List.concat_eq_append]
    have h1 : l₁ ++ a :: (l₂' ++ [z]) = (l₁ ++ a :: l₂') ++ [z] := by simp
    rw [h1, swapRemove_concat]
    have h2 : (l₁ ++ a :: l₂') ++ [z] = l₁ ++ a :: (l₂' ++ [z]) := by simp
    rw [h2, set_append_cons]
    have h3 : l₁ ++ z :: (l₂' ++ [z]) = (l₁ ++ z :: l₂') ++ [z] := by simp
    rw [h3, List.dropLast_concat]
    exact List.Perm.append_left l₁ ((List.perm_append_singleton z l₂').symm)

theorem mem_of_unique_ids_removed (l₁ l₂ : List TableInfo) (a : TableInfo)
    (hnd : ((l₁ ++ a :: l₂).map TableInfo.id).Nodup) (x : TableInfo) :
    x ∈ l₁ ++ l₂ ↔ (x ∈ l₁ ++ a :: l₂ ∧ x.id ≠ a.id) := by
  simp only [List.map_append, List.map_cons] at hnd
  rw [List.nodup_append] at hnd
  obtain ⟨h1, h2, hdisj⟩ := hnd
  rw [List.nodup_cons] at h2
  constructor
  · intro hx
    rcases List.mem_append.mp hx with hx1 | hx2
    · refine ⟨List.mem_append.mpr (Or.inl hx1), fun hid => ?_⟩
      exact hdisj (List.mem_map_of_mem _ hx1) (hid ▸ List.mem_cons_self a.id _)
    · refine ⟨List.mem_append.mpr (Or.inr (List.mem_cons_of_mem a hx2)), fun hid => ?_⟩
      exact h2.1 (hid ▸ List.mem_map_of_mem _ hx2)
  · rintro ⟨hx, hne⟩
    rcases List.mem_append.mp hx with hx1 | hx2
    · exact List.mem_append.mpr (Or.inl hx1)
    · rcases List.mem_cons.mp hx2 with hxa | hx2'
      · exact absurd (congrArg TableInfo.id hxa) hne
      · exact List.mem_append.mpr (Or.inr hx2')

/-- C5: on a non-frozen shard with a matching version token: create
(try_create_table) fails with TableAlreadyExists and performs no mutation
when a table with the same id is already present, and otherwise appends
exactly the given table; drop (try_drop_table) fails with TableNotFound
and performs no mutation when no table with the given id is present, and
otherwise succeeds and — given the ShardState invariant that table ids
are unique — leaves exactly the prior tables minus the one carrying that
id (order need not be preserved: the removal is a swap-remove). -/
theorem create_and_drop_membership (d : ShardData) (u : UpdatedTableInfo)
    (hf : d.shard_info.status ≠ ShardStatus.Frozen)
    (hv : d.shard_info.version = u.shard_info.version) :
    ((∃ t ∈ d.tables, t.id = u.table_info.id) →
      d.try_create_table u =
        (Except.error (ShardError.TableAlreadyExists
            "the table to insert has already existed"), d))
    ∧ ((∀ t ∈ d.tables, t.id ≠ u.table_info.id) →
      d.try_create_table u =
        (Except.ok (d.shard_info.version + 1),
         ⟨{ d.shard_info with version := d.shard_info.version + 1 },
          d.tables ++ [u.table_info]⟩))
    ∧ ((∀ t ∈ d.tables, t.id ≠ u.table_info.id) →
      d.try_drop_table u =
        (Except.error (ShardError.TableNotFound
            "the table to remove is not found"), d))
    ∧ ((∃ t ∈ d.tables, t.id = u.table_info.id) →
      (d.try_drop_table u).1 = Except.ok (d.shard_info.version + 1) ∧
      ((d.tables.map TableInfo.id).Nodup →
        ∀ x : TableInfo, x ∈ (d.try_drop_table u).2.tables ↔
          (x ∈ d.tables ∧ x.id ≠ u.table_info.id))) := by
  have hf' : d.is_frozen = false := d.is_frozen_eq_false hf
  refine ⟨?_, ?_, ?_, ?_⟩
  · intro hex
    have hsome : (d.tables.find? (fun t => t.id == u.table_info.id)).isSome = true := by
      rw [List.find?_isSome]
      obtain ⟨t, ht, hid⟩ := hex
      exact ⟨t, ht, by simp [hid]⟩
    unfold ShardData.try_create_table
    exact try_insert_already_exists d u true hf' hv hsome
  · intro habs
    have hnone : d.tables.find? (fun t => t.id == u.table_info.id) = none := by
      rw [List.find?_eq_none]
      intro t ht
      simpa using habs t ht
    unfold ShardData.try_create_table
    rw [try_insert_table_success d u true hf' hv hnone]
    simp
  · intro habs
    have hnone : listPosition (fun t => t.id == u.table_info.id) d.tables = none := by
      rw [listPosition_eq_none]
      intro t ht
      simpa using habs t ht
    unfold ShardData.try_drop_table
    exact try_remove_not_found d u true hf' hv hnone
  · intro hex
    have hpos' : ∃ i, listPosition (fun t => t.id == u.table_info.id) d.tables = some i := by
      rcases hp : listPosition (fun t => t.id == u.table_info.id) d.tables with _ | i
      · rw [listPosition_eq_none] at hp
        obtain ⟨t, ht, hid⟩ := hex
        exact absurd (by simp [hid]) (hp t ht)
      · exact ⟨i, hp⟩
    obtain ⟨i, hpos⟩ := hpos'
    obtain ⟨l₁, a, l₂, hl, hlen, hpa⟩ := listPosition_eq_some _ _ i hpos
    have haid : a.id = u.table_info.id := by simpa using hpa
    have htab : (d.try_drop_table u).2.tables = swapRemove d.tables i := by
      unfold ShardData.try_drop_table
      rw [try_remove_table_success d u true i hf' hv hpos]
    refine ⟨?_, ?_⟩
    · unfold ShardData.try_drop_table
      rw [try_remove_table_success d u true i hf' hv hpos]
      rfl
    · intro hnd x
      rw [htab, hl, ← hlen]
      rw [(swapRemove_append_cons l₁ l₂ a).mem_iff]
      have := mem_of_unique_ids_removed l₁ l₂ a (hl ▸ hnd) x
      rw [haid] at this
      rw [this, ← hl]

theorem create_and_drop_membership_witness :
    (ShardData.try_create_table ⟨⟨1, 0, ShardStatus.Ready⟩, []⟩
        ⟨⟨1, 0, ShardStatus.Ready⟩, ⟨5, "t", "s"⟩⟩) =
      (Except.ok 1, ⟨⟨1, 1, ShardStatus.Ready⟩, [⟨5, "t", "s"⟩]⟩) :=
  (create_and_drop_membership ⟨⟨1, 0, ShardStatus.Ready⟩, []⟩
      ⟨⟨1, 0, ShardStatus.Ready⟩, ⟨5, "t", "s"⟩⟩ (by decide) rfl).2.1
    (by decide)

theorem try_insert_table_preserves_unique_ids (d : ShardData)
    (u : UpdatedTableInfo) (b : Bool)
    (hnd : (d.tables.map TableInfo.id).Nodup) :
    ((d.try_insert_table u b).2.tables.map TableInfo.id).Nodup := by
  by_cases hf : d.is_frozen = true
  · rw [try_insert_frozen d u b hf]
    exact hnd
  rw [Bool.not_eq_true] at hf
  by_cases hv : d.shard_info.version = u.shard_info.version
  · rcases habs : d.tables.find? (fun t => t.id == u.table_info.id) with _ | t
    · rw [try_insert_table_success d u b hf hv habs]
      show ((d.tables ++ [u.table_info]).map TableInfo.id).Nodup
      rw [List.map_append, List.nodup_append]
      refine ⟨hnd, by simp, ?_⟩
      intro x hx hx2
      simp only [List.map_cons, List.map_nil, List.mem_singleton] at hx2
      rw [List.find?_eq_none] at habs
      obtain ⟨t', ht', hid⟩ := List.mem_map.mp hx
      exact habs t' ht' (by simp [hid, hx2])
    · rw [try_insert_already_exists d u b hf hv (by simp [habs])]
      exact hnd
  · rw [try_insert_version_mismatch d u b hf hv]
    exact hnd

theorem try_remove_table_preserves_unique_ids (d : ShardData)
    (u : UpdatedTableInfo) (b : Bool)
    (hnd : (d.tables.map TableInfo.id).Nodup) :
    ((d.try_remove_table u b).2.tables.map TableInfo.id).Nodup := by
  by_cases hf : d.is_frozen = true
  · rw [try_remove_frozen d u b hf]
    exact hnd
  rw [Bool.not_eq_true] at hf
  by_cases hv : d.shard_info.version = u.shard_info.version
  · rcases hpos : listPosition (fun t => t.id == u.table_info.id) d.tables with _ | i
    · rw [try_remove_not_found d u b hf hv hpos]
      exact hnd
    · rw [try_remove_table_success d u b i hf hv hpos]
      show ((swapRemove d.tables i).map TableInfo.id).Nodup
      obtain ⟨l₁, a, l₂, hl, hlen, hpa⟩ := listPosition_eq_some _ _ i hpos
      rw [hl, ← hlen]
      rw [((swapRemove_append_cons l₁ l₂ a).map TableInfo.id).nodup_iff]
      refine List.Nodup.sublist ?_ (hl ▸ hnd)
      exact ((List.sublist_cons_self a l₂).append_left l₁).map TableInfo.id
  · rw [try_remove_version_mismatch d u b hf hv]
    exact hnd

theorem applyTableOp_preserves_unique_ids (d : ShardData) (op : TableOp)
    (hnd : (d.tables.map TableInfo.id).Nodup) :
    ((applyTableOp d op).tables.map TableInfo.id).Nodup := by
  cases op with
  | createTable u => exact try_insert_table_preserves_unique_ids d u true hnd
  | dropTable u => exact try_remove_table_preserves_unique_ids d u true hnd
  | openTable u => exact try_insert_table_preserves_unique_ids d u false hnd
  | closeTable u => exact try_remove_table_preserves_unique_ids d u false hnd

theorem foldl_applyTableOp_preserves_unique_ids (ops : List TableOp)
    (d : ShardData) (hnd : (d.tables.map TableInfo.id).Nodup) :
    ((ops.foldl applyTableOp d).tables.map TableInfo.id).Nodup := by
  induction ops generalizing d with
  | nil => exact hnd
  | cons op rest ih => exact ih _ (applyTableOp_preserves_unique_ids d op hnd)

/-- C8 counterexample: Shard::new copies the externally supplied
TablesOfShard descriptor without any duplicate check, so a freshly
constructed shard can hold two tables with the same id — refuting the
claim for the "freshly constructed from an externally supplied
descriptor" case. -/
theorem shard_new_duplicate_ids_counterexample :
    ¬ (((Shard.new ⟨⟨0, 0, ShardStatus.NotOpened⟩,
        [⟨1, "t1", "s"⟩, ⟨1, "t2", "s"⟩]⟩).tables.map TableInfo.id).Nodup) := by
  decide

/-- C8 amended: provided the externally supplied TablesOfShard descriptor
itself has pairwise-distinct table ids, table ids are unique within the
shard state at all times: in the state Shard::new builds from the
descriptor, and after every sequence of create/drop/open/close table
operations applied to it (each operation preserves uniqueness whether it
succeeds or fails). -/
theorem unique_ids_invariant (t : TablesOfShard)
    (h : (t.tables.map TableInfo.id).Nodup) (ops : List TableOp) :
    ((ops.foldl applyTableOp (Shard.new t)).tables.map TableInfo.id).Nodup :=
  foldl_applyTableOp_preserves_unique_ids ops (Shard.new t) h

theorem unique_ids_invariant_witness :
    (([TableOp.createTable ⟨⟨1, 0, ShardStatus.Ready⟩, ⟨2, "t2", "s"⟩⟩].foldl
        applyTableOp
        (Shard.new ⟨⟨1, 0, ShardStatus.Ready⟩,
          [⟨1, "t1", "s"⟩]⟩)).tables.map TableInfo.id).Nodup :=
  unique_ids_invariant ⟨⟨1, 0, ShardStatus.Ready⟩, [⟨1, "t1", "s"⟩]⟩ (by decide)
    [TableOp.createTable ⟨⟨1, 0, ShardStatus.Ready⟩, ⟨2, "t2", "s"⟩⟩]

theorem find?_filter_ne_none {H : Type} (l : List (Nat × H)) (i : Nat) :
    (l.filter (fun p => p.1 != i)).find? (fun p => p.1 == i) = none := by
  rw [List.find?_eq_none]
  intro x hx
  have hne := (List.mem_filter.mp hx).2
  simp only [bne_iff_ne, ne_eq] at hne
  simp [hne]

theorem find?_of_mem_nodup_keys {H : Type} (l : List (Nat × H)) (k : Nat) (x : H)
    (hnd : (l.map Prod.fst).Nodup) (hmem : (k, x) ∈ l) :
    l.find? (fun p => p.1 == k) = some (k, x) := by
  induction l with
  | nil => cases hmem
  | cons a t ih =>
    rw [List.map_cons, List.nodup_cons] at hnd
    rcases List.mem_cons.mp hmem with rfl | hmem'
    · simp [List.find?_cons]
    · have hne : a.1 ≠ k := by
        intro hk
        exact hnd.1 (hk ▸ List.mem_map_of_mem Prod.fst hmem')
      simp [List.find?_cons, hne]
      exact ih hnd.2 hmem'

/-- C9: the registry is a map from shard id to handle: get after insert
returns the inserted handle; remove returns the handle previously
inserted and get afterwards returns none; remove of an absent id returns
none (idempotent); insert of a fresh id returns none while insert over an
existing id returns the replaced handle; and for a registry with unique
keys, all_shards returns exactly the currently inserted handles — every
handle, with no filtering by open status. -/
theorem shard_set_map_semantics (H : Type) (s : ShardSet H) (i : Nat) (h : H) :
    ((s.insert i h).2.get i = some h)
    ∧ (((s.insert i h).2.remove i).1 = some h)
    ∧ ((s.remove i).2.get i = none)
    ∧ (s.get i = none → (s.remove i).1 = none)
    ∧ (s.get i = none → (s.insert i h).1 = none)
    ∧ (∀ h0 : H, s.get i = some h0 → (s.insert i h).1 = some h0)
    ∧ ((s.inner.map Prod.fst).Nodup →
        ∀ x : H, x ∈ s.all_shards ↔ ∃ j : Nat, s.get j = some x) := by
  have hget : (s.insert i h).2.get i = some h := by
    unfold ShardSet.insert ShardSet.get
    rw [List.find?_cons]
    simp
  refine ⟨hget, ?_, ?_, fun hn => hn, fun hn => hn, fun h0 hs => hs, ?_⟩
  · show (s.insert i h).2.get i = some h
    exact hget
  · unfold ShardSet.remove ShardSet.get
    rw [find?_filter_ne_none]
    rfl
  · intro hnd x
    constructor
    · intro hx
      obtain ⟨p, hp, hsnd⟩ := List.mem_map.mp hx
      refine ⟨p.1, ?_⟩
      unfold ShardSet.get
      rw [find?_of_mem_nodup_keys s.inner p.1 x hnd (by rw [← hsnd]; exact hp)]
      rfl
    · rintro ⟨j, hj⟩
      unfold ShardSet.get at hj
      rcases hfind : s.inner.find? (fun p => p.1 == j) with _ | p
      · rw [hfind] at hj
        cases hj
      · rw [hfind] at hj
        have hp : p ∈ s.inner := List.mem_of_find?_eq_some hfind
        have hx : p.2 = x := by
          simpa using hj
        exact hx ▸ List.mem_map_of_mem Prod.snd hp

theorem shard_set_map_semantics_witness :
    ((5 : Nat) ∈ (ShardSet.all_shards (⟨[(1, 5)]⟩ : ShardSet Nat)) ↔
      ∃ j : Nat, (⟨[(1, 5)]⟩ : ShardSet Nat).get j = some 5) :=
  ((shard_set_map_semantics Nat ⟨[(1, 5)]⟩ 1 5).2.2.2.2.2.2 (by decide)) 5
